import Mathlib

/-!
Verification development for the drone-cloud-railway telemetry relay
(`app/main.py`): a FastAPI service with a WebSocket connection hub
(`ConnectionManager`), telemetry ingestion/query endpoints backed by a
SQLite store, and a photo-upload endpoint with a remote-or-local media
sink.  Each Python function relevant to the verified properties is
shallowly embedded as a Lean definition below; external effects
(SQLite calls, network sends, disk writes) are passed in as explicit
oracle arguments or recorded as effect lists.
-/

/-- Python/JSON values as they appear in the service's request and
response bodies (`dict`s built in `main.py`). -/
inductive Json where
  | null : Json
  | str : String → Json
  | num : Int → Json
  | bool : Bool → Json
  | obj : List (String × Json) → Json
  | arr : List Json → Json

/-- Field lookup on a JSON object (Python `d.get(k)` / `d[k]`);
`none` on non-objects or missing keys. -/
def Json.lookup (j : Json) (k : String) : Option Json :=
  match j with
  | .obj fields => List.lookup k fields
  | _ => none

/-- An HTTP handler result: either a 200 body (a plain `dict` return in
FastAPI) or a `JSONResponse(body, status_code)` error. -/
inductive Response where
  | ok : Json → Response
  | error : Nat → Json → Response

/-- The error body `{"status": "error", "detail": <detail>}` built by the
`except` branches of `main.py`. -/
def errorBody (detail : String) : Json :=
  Json.obj [("status", Json.str "error"), ("detail", Json.str detail)]

/-- A live WebSocket connection, identified abstractly (Python object
identity of the `WebSocket` instance). -/
abbrev Conn := Nat

namespace ConnectionManager

/-- Method `ConnectionManager.disconnect` (main.py lines 92-94):
`if websocket in self.active: self.active.remove(websocket)`.
Python `list.remove` removes the first occurrence. -/
def disconnect (active : List Conn) (w : Conn) : List Conn :=
  if w ∈ active then active.erase w else active

/-- Method `ConnectionManager.connect` (main.py lines 82-90).  Returns the
success flag, the new membership list, and the close code sent to the
socket (`some 4001` on token mismatch, `none` when accepted).  On a
match the socket is accepted and appended to `self.active`. -/
def connect (authToken : String) (active : List Conn) (w : Conn)
    (token : String) : Bool × List Conn × Option Nat :=
  if token ≠ authToken then (false, active, some 4001)
  else (true, active ++ [w], none)

/-- The loop body of `ConnectionManager.broadcast` (main.py lines
102-110), iterating over the snapshot `list(self.active)` while the
live membership `st` is mutated by `disconnect` on send failure.
`sendOk c` tells whether `conn.send_text` succeeds or raises for
connection `c`; the `except` clause turns a raise into `disconnect`.
Returns the final membership and the successfully delivered
`(recipient, message)` pairs in iteration order. -/
def broadcastGo {M : Type} (sendOk : Conn → Bool) (msg : M)
    (sender : Option Conn) : List Conn → List Conn →
    List Conn × List (Conn × M)
  | [], st => (st, [])
  | c :: rest, st =>
    if some c = sender then broadcastGo sendOk msg sender rest st
    else if sendOk c then
      let r := broadcastGo sendOk msg sender rest st
      (r.1, (c, msg) :: r.2)
    else broadcastGo sendOk msg sender rest (disconnect st c)

/-- Method `ConnectionManager.broadcast` (main.py lines 102-110): iterates
over a point-in-time copy of `self.active`, skips `sender`, sends to
each other member, and prunes a member whose send raises.  A total
function: no exception escapes to the caller. -/
def broadcast {M : Type} (sendOk : Conn → Bool) (msg : M)
    (sender : Option Conn) (active : List Conn) :
    List Conn × List (Conn × M) :=
  broadcastGo sendOk msg sender active active

/-- The membership effect of one iteration of the broadcast loop on
snapshot member `c`: members whose send raises (and that are not the
sender) are pruned, all others leave the state unchanged. -/
def pruneStep (sendOk : Conn → Bool) (sender : Option Conn)
    (st : List Conn) (c : Conn) : List Conn :=
  if some c = sender then st
  else if sendOk c then st
  else disconnect st c

end ConnectionManager

/-- One iteration of the relay loop in `websocket_endpoint` (main.py
lines 119-123): a received frame `data` from admitted connection `w`
is broadcast with `sender=websocket`, excluding `w` itself. -/
def relayStep (sendOk : Conn → Bool) (w : Conn) (data : String)
    (active : List Conn) : List Conn × List (Conn × String) :=
  ConnectionManager.broadcast sendOk data (some w) active

/-- The WebSocket envelope built at main.py line 160:
`json.dumps({"type": "telemetry", "data": payload})`. -/
def telemetryEnvelope (payload : Json) : Json :=
  Json.obj [("type", Json.str "telemetry"), ("data", payload)]

/-- The `POST /api/telemetry` handler `telemetry` (main.py lines 133-164).
`insert` is the outcome of the SQLite INSERT (the `try` block);
on failure the handler returns a 500 with the exception text and
performs no broadcast.  On success it broadcasts the telemetry
envelope to all live connections with no sender exclusion (the
`except: pass` around the broadcast is vacuous since `broadcast`
is total) and returns `{"status": "ok"}`.  Result: the HTTP response,
the membership after the broadcast, and the delivered messages. -/
def telemetry (insert : Except String Unit) (payload : Json)
    (sendOk : Conn → Bool) (active : List Conn) :
    Response × List Conn × List (Conn × Json) :=
  match insert with
  | .error e => (Response.error 500 (errorBody e), active, [])
  | .ok _ =>
    let r := ConnectionManager.broadcast sendOk (telemetryEnvelope payload)
      none active
    (Response.ok (Json.obj [("status", Json.str "ok")]), r.1, r.2)

/-- Modelled from the spec: the envelope shape the specification
asserts for the telemetry broadcast, `{kind: "telemetry", data:
sample}` — to be compared against `telemetryEnvelope`, which embeds
what the code actually builds. -/
def specEnvelopeKind (payload : Json) : Json :=
  Json.obj [("kind", Json.str "telemetry"), ("data", payload)]

/-- A stored telemetry row (table `telemetry`, main.py lines 40-51):
`time` is the writer's UTC ISO-8601 timestamp, modelled as a `Nat`
(ISO strings from a single UTC writer compare lexicographically
consistently with time order under SQLite's BINARY collation); the
payload columns are nullable. -/
structure TelemetryRow where
  time : Nat
  lat : Option Int
  lon : Option Int
  alt : Option Int
  batt : Option Int
  meta : Option String
deriving Repr, DecidableEq

/-- Insert `r` into a list sorted newest-first by `time`. -/
def insertDesc (r : TelemetryRow) : List TelemetryRow → List TelemetryRow
  | [] => [r]
  | x :: xs => if x.time ≤ r.time then r :: x :: xs else x :: insertDesc r xs

/-- The `ORDER BY time DESC` ordering (main.py lines 176-179 and 196): sort the
stored rows newest-first by timestamp. -/
def sortTimeDesc : List TelemetryRow → List TelemetryRow
  | [] => []
  | r :: rs => insertDesc r (sortTimeDesc rs)

/-- The row dict built at main.py line 185 (and line 203):
`{"time": r[0], "lat": r[1], "lon": r[2], "alt": r[3], "batt": r[4],
"meta": r[5]}`. -/
def rowJson (r : TelemetryRow) : Json :=
  Json.obj [("time", Json.num (Int.ofNat r.time)),
    ("lat", (r.lat.map Json.num).getD Json.null),
    ("lon", (r.lon.map Json.num).getD Json.null),
    ("alt", (r.alt.map Json.num).getD Json.null),
    ("batt", (r.batt.map Json.num).getD Json.null),
    ("meta", (r.meta.map Json.str).getD Json.null)]

/-- FastAPI validation of `limit: int = Query(50, ge=1, le=1000)`
(main.py line 167): a missing parameter takes the default 50; an
out-of-range value is rejected with a validation error (FastAPI
returns 422; it does not clamp). -/
def validateLimitParam : Option Int → Except String Int
  | none => .ok 50
  | some n =>
    if n < 1 then .error "limit must be greater than or equal to 1"
    else if n > 1000 then .error "limit must be less than or equal to 1000"
    else .ok n

/-- Body of `telemetry_recent` (main.py lines 166-188) after parameter
validation: `db` is the outcome of the SQLite query (the `try` block
yielding the stored rows); on success the handler returns
`{"rows": [...]}` with the rows ordered newest-first and truncated by
`LIMIT ?`. -/
def telemetry_recent (db : Except String (List TelemetryRow))
    (limit : Int) : Response :=
  match db with
  | .error e => Response.error 500 (errorBody e)
  | .ok store =>
    Response.ok (Json.obj
      [("rows", Json.arr (((sortTimeDesc store).take limit.toNat).map rowJson))])

/-- The `GET /api/telemetry/recent` endpoint as reached over HTTP: FastAPI validates
the `limit` query parameter (rejecting out-of-range values with a 422)
before the handler body runs. -/
def telemetryRecentEndpoint (db : Except String (List TelemetryRow))
    (limitParam : Option Int) : Response :=
  match validateLimitParam limitParam with
  | .error e => Response.error 422 (errorBody e)
  | .ok lim => telemetry_recent db lim

/-- Number of rows carried by a successful `telemetry_recent` response
(0 for error responses). -/
def recentRowCount : Response → Nat
  | Response.ok (Json.obj [(_, Json.arr xs)]) => xs.length
  | _ => 0

/-- The `GET /api/telemetry/latest` handler `latest` (main.py lines
191-203): `SELECT * ... ORDER BY time DESC LIMIT 1` yields the head of
the newest-first ordering; `if not row: return {}` maps an empty store
to an empty JSON object with success status. -/
def latest (db : Except String (List TelemetryRow)) : Response :=
  match db with
  | .error e => Response.error 500 (errorBody e)
  | .ok store =>
    match (sortTimeDesc store).head? with
    | none => Response.ok (Json.obj [])
    | some r => Response.ok (rowJson r)

/-- Python truthiness of an optional environment string (`if X and Y`,
main.py line 223): `None` and the empty string are falsy. -/
def truthy : Option String → Bool
  | none => false
  | some s => s ≠ ""

/-- Python string interpolation of an optional value (`f"PHOTO:{url}"`,
main.py line 238): `None` prints as `"None"`. -/
def pyStr : Option String → String
  | none => "None"
  | some s => s

/-- Python `s.rstrip("/")` (main.py lines 255 and 258). -/
def rstripSlash (s : String) : String :=
  s.dropRightWhile (fun c => c = '/')

/-- Deployment configuration of the photo endpoint (env vars at
main.py lines 18-23). -/
structure PhotoConfig where
  authToken : String
  cloudinaryUploadUrl : Option String
  cloudinaryUploadPreset : Option String
  photosDir : String
  publicUrl : String
deriving Repr, DecidableEq

/-- The remote hosting service's reply to `requests.post` (main.py
line 229): HTTP status, raw text, and the `secure_url` / `url` fields
of the parsed JSON body. -/
structure RemoteResp where
  statusCode : Nat
  text : String
  secure_url : Option String
  url : Option String
deriving Repr, DecidableEq

/-- Observable side effects of `upload_photo`: a remote upload attempt
(`requests.post`), a local file-write attempt (`open(path, "wb")`),
and a hub broadcast (`manager.broadcast`). -/
inductive PhotoEffect where
  | remotePost : PhotoEffect
  | localWrite : String → PhotoEffect
  | wsBroadcast : String → PhotoEffect
deriving Repr, DecidableEq

/-- The `POST /api/photo` handler `upload_photo` (main.py lines 208-268).
The token is checked first; on mismatch the handler returns
`{"status": "forbidden"}` with status 403 before reading the file,
touching storage, or broadcasting.  Otherwise, if both Cloudinary env
vars are truthy the remote strategy runs (`remote` is the outcome of
`requests.post`: a transport exception or a reply); else the local
strategy writes `photo_<ts>_<filename>` (spaces replaced) under
`photosDir` (`localWriteOk` is the outcome of the disk write) and
resolves the URL against `PUBLIC_URL` or the request's base URL.  A
successful store broadcasts `PHOTO:<url>` to all live connections
(no exclusion; the surrounding `except: pass` is vacuous since
`broadcast` is total).  Returns the response plus the effect trace. -/
def upload_photo (cfg : PhotoConfig) (token : String) (filename : String)
    (remote : Except String RemoteResp) (localWriteOk : Except String Unit)
    (ts : Nat) (requestBaseUrl : String) : Response × List PhotoEffect :=
  if token ≠ cfg.authToken then
    (Response.error 403 (Json.obj [("status", Json.str "forbidden")]), [])
  else if truthy cfg.cloudinaryUploadUrl && truthy cfg.cloudinaryUploadPreset then
    match remote with
    | .error e =>
      (Response.error 500 (errorBody ("Cloud upload failed: " ++ e)),
       [.remotePost])
    | .ok r =>
      if r.statusCode ≠ 200 ∧ r.statusCode ≠ 201 then
        (Response.error 500 (errorBody r.text), [.remotePost])
      else
        let url := if truthy r.secure_url then r.secure_url else r.url
        (Response.ok (Json.obj [("status", Json.str "ok"),
           ("url", Json.str (pyStr url))]),
         [.remotePost, .wsBroadcast ("PHOTO:" ++ pyStr url)])
  else
    let safe_name :=
      ("photo_" ++ toString ts ++ "_" ++ filename).replace " " "_"
    let path := cfg.photosDir ++ "/" ++ safe_name
    match localWriteOk with
    | .error e =>
      (Response.error 500 (errorBody ("write failed: " ++ e)),
       [.localWrite path])
    | .ok _ =>
      let base := if cfg.publicUrl ≠ "" then rstripSlash cfg.publicUrl
        else rstripSlash requestBaseUrl
      let photo_url := base ++ "/photos/" ++ safe_name
      (Response.ok (Json.obj [("status", Json.str "ok"),
         ("url", Json.str photo_url)]),
       [.localWrite path, .wsBroadcast ("PHOTO:" ++ photo_url)])

namespace ConnectionManager

theorem disconnect_eq_erase (active : List Conn) (w : Conn) :
    disconnect active w = active.erase w := by
  unfold disconnect
  by_cases h : w ∈ active
  · simp [h]
  · simp [h, List.erase_of_not_mem h]

/-- The per-broadcast membership update: each member of the snapshot
that is not the sender and whose send fails is pruned, in order. -/
theorem broadcastGo_fst {M : Type} (sendOk : Conn → Bool) (msg : M)
    (sender : Option Conn) (snap st : List Conn) :
    (broadcastGo sendOk msg sender snap st).1 =
      snap.foldl (pruneStep sendOk sender) st := by
  induction snap generalizing st with
  | nil => rfl
  | cons c rest ih =>
    by_cases hs : some c = sender
    · simp [broadcastGo, pruneStep, hs, ih]
    · by_cases hk : sendOk c
      · simp [broadcastGo, pruneStep, hs, hk, ih]
      · simp [broadcastGo, pruneStep, hs, hk, ih]

theorem broadcast_fst {M : Type} (sendOk : Conn → Bool) (msg : M)
    (sender : Option Conn) (active : List Conn) :
    (broadcast sendOk msg sender active).1 =
      active.foldl (pruneStep sendOk sender) active :=
  broadcastGo_fst sendOk msg sender active active

/-- The delivered pairs of one broadcast: exactly the snapshot members
that are not the sender and whose send succeeds, in snapshot order,
independent of the concurrent membership mutations. -/
theorem broadcastGo_snd {M : Type} (sendOk : Conn → Bool) (msg : M)
    (sender : Option Conn) (snap st : List Conn) :
    (broadcastGo sendOk msg sender snap st).2 =
      (snap.filter (fun c => decide (some c ≠ sender) && sendOk c)).map
        (fun c => (c, msg)) := by
  induction snap generalizing st with
  | nil => rfl
  | cons c rest ih =>
    by_cases hs : some c = sender
    · simp [broadcastGo, hs, ih]
    · by_cases hk : sendOk c
      · simp [broadcastGo, hs, hk, ih]
      · simp [broadcastGo, hs, hk, ih]

theorem broadcast_snd {M : Type} (sendOk : Conn → Bool) (msg : M)
    (sender : Option Conn) (active : List Conn) :
    (broadcast sendOk msg sender active).2 =
      (active.filter (fun c => decide (some c ≠ sender) && sendOk c)).map
        (fun c => (c, msg)) :=
  broadcastGo_snd sendOk msg sender active active

/-- A broadcast only ever delivers to connections that were members of
the snapshot it started from. -/
theorem broadcast_delivered_mem {M : Type} (sendOk : Conn → Bool)
    (msg : M) (sender : Option Conn) (active : List Conn) (c : Conn)
    (m : M) (h : (c, m) ∈ (broadcast sendOk msg sender active).2) :
    c ∈ active := by
  rw [broadcast_snd] at h
  rcases List.mem_map.mp h with ⟨d, hd, hdc⟩
  cases hdc
  exact List.mem_of_mem_filter hd

/-- If no snapshot member triggers the failure branch, the membership
fold leaves the state unchanged. -/
theorem foldl_prune_id (sendOk : Conn → Bool) (sender : Option Conn)
    (snap : List Conn)
    (h : ∀ c ∈ snap, some c = sender ∨ sendOk c = true) :
    ∀ st : List Conn, snap.foldl (pruneStep sendOk sender) st = st := by
  induction snap with
  | nil => intro st; rfl
  | cons c rest ih =>
    intro st
    have htail := ih fun d hd => h d (List.mem_cons_of_mem c hd)
    rcases h c (List.mem_cons_self c rest) with hs | hk
    · simpa [pruneStep, hs] using htail st
    · by_cases hs : some c = sender
      · simpa [pruneStep, hs] using htail st
      · simpa [pruneStep, hs, hk] using htail st

/-- If exactly one snapshot member `k` (present once, not the sender)
fails and every other member succeeds, the membership fold is a single
`disconnect` at `k`. -/
theorem foldl_prune_single (sendOk : Conn → Bool) (sender : Option Conn)
    (k : Conn) (hksender : some k ≠ sender) (hkfail : sendOk k = false) :
    ∀ snap : List Conn, snap.Nodup → k ∈ snap →
    (∀ c ∈ snap, c ≠ k → sendOk c = true) →
    ∀ st : List Conn,
    snap.foldl (pruneStep sendOk sender) st = disconnect st k := by
  intro snap
  induction snap with
  | nil => intro _ hmem; cases hmem
  | cons c rest ih =>
    intro hnd hmem hothers st
    rcases List.mem_cons.mp hmem with hck | hkrest
    · have hkc : sendOk c = false := by rw [← hck]; exact hkfail
      have hcs : ¬ some c = sender := by rw [← hck]; exact hksender
      have hknotrest : k ∉ rest := by
        rw [hck]; exact (List.nodup_cons.mp hnd).1
      have hrest : rest.foldl (pruneStep sendOk sender) (disconnect st c) =
          disconnect st c := by
        refine foldl_prune_id sendOk sender rest ?_ (disconnect st c)
        intro d hd
        exact Or.inr (hothers d (List.mem_cons_of_mem c hd)
          (fun hdk => hknotrest (hdk ▸ hd)))
      calc (c :: rest).foldl (pruneStep sendOk sender) st
          = rest.foldl (pruneStep sendOk sender) (disconnect st c) := by
            simp [pruneStep, hcs, hkc]
        _ = disconnect st c := hrest
        _ = disconnect st k := by rw [← hck]
    · have hcnk : c ≠ k := fun hck => by
        rw [hck] at hnd
        exact (List.nodup_cons.mp hnd).1 hkrest
      have hcok : sendOk c = true :=
        hothers c (List.mem_cons_self c rest) hcnk
      have htail := ih (List.nodup_cons.mp hnd).2 hkrest
        (fun d hd hdk => hothers d (List.mem_cons_of_mem c hd) hdk) st
      by_cases hs : some c = sender
      · simpa [pruneStep, hs] using htail
      · simpa [pruneStep, hs, hcok] using htail

end ConnectionManager

/-- C5: when the Store insert fails, the telemetry handler returns a 500
error response carrying the diagnostic detail and performs no broadcast
at all — the membership is untouched and no message is delivered to any
viewer. -/
theorem claim_C5_persistence_failure_skips_broadcast (e : String)
    (payload : Json) (sendOk : Conn → Bool) (active : List Conn) :
    telemetry (Except.error e) payload sendOk active =
      (Response.error 500 (errorBody e), active, []) := rfl

/-- C10: with an empty Store, the `latest` query endpoint returns an
empty JSON object as a success response, not an error. -/
theorem claim_C10_latest_empty_store_ok :
    latest (Except.ok []) = Response.ok (Json.obj []) := rfl

/-- C9: `disconnect` (the hub's `remove`) is idempotent on any
duplicate-free membership state — the invariant maintained by the hub,
which appends each freshly accepted connection object exactly once —
and removing an absent connection is a no-op; being a total function,
it raises no error in either case. -/
theorem claim_C9_disconnect_idempotent (active : List Conn) (w : Conn)
    (h : active.Nodup) :
    ConnectionManager.disconnect (ConnectionManager.disconnect active w) w =
      ConnectionManager.disconnect active w ∧
    (w ∉ active → ConnectionManager.disconnect active w = active) := by
  constructor
  · simp only [ConnectionManager.disconnect_eq_erase]
    exact List.erase_of_not_mem h.not_mem_erase
  · intro hw
    simp [ConnectionManager.disconnect, hw]

/-- Witness for C9 at a concrete membership state. -/
theorem claim_C9_witness :
    ConnectionManager.disconnect
        (ConnectionManager.disconnect [0, 1, 2] 1) 1 =
      ConnectionManager.disconnect [0, 1, 2] 1 ∧
    ((1 : Conn) ∉ ([0, 1, 2] : List Conn) →
      ConnectionManager.disconnect [0, 1, 2] 1 = [0, 1, 2]) :=
  claim_C9_disconnect_idempotent [0, 1, 2] 1 (by decide)

/-- C3: `connect` (the hub's `admit`) rejects a connection whose token
differs from the shared secret by closing it with the distinct code
4001, returning failure, and leaving membership unchanged — so a
connection absent from membership never receives any broadcast; on a
token match it accepts the socket, appends it to membership, and
returns success. -/
theorem claim_C3_connect_auth (authToken token : String) (w : Conn)
    (active : List Conn) :
    (token ≠ authToken →
      ConnectionManager.connect authToken active w token =
        (false, active, some 4001) ∧
      (w ∉ active → ∀ (M : Type) (sendOk : Conn → Bool) (msg : M)
        (sender : Option Conn) (m : M),
        (w, m) ∉ (ConnectionManager.broadcast sendOk msg sender active).2)) ∧
    (token = authToken →
      ConnectionManager.connect authToken active w token =
        (true, active ++ [w], none)) := by
  constructor
  · intro hne
    refine ⟨by simp [ConnectionManager.connect, hne], ?_⟩
    intro hw M sendOk msg sender m hmem
    exact hw (ConnectionManager.broadcast_delivered_mem sendOk msg sender
      active w m hmem)
  · intro heq
    simp [ConnectionManager.connect, heq]

/-- Witness for C3 at concrete tokens and membership. -/
theorem claim_C3_witness :
    ConnectionManager.connect "secret" [0] 1 "bad" = (false, [0], some 4001) ∧
    (∀ m : Json, (1, m) ∉
      (ConnectionManager.broadcast (fun _ => true) (Json.str "x") none
        ([0] : List Conn)).2) ∧
    ConnectionManager.connect "secret" [0] 1 "secret" = (true, [0, 1], none) := by
  have hbad := (claim_C3_connect_auth "secret" "bad" 1 [0]).1 (by decide)
  have hok := (claim_C3_connect_auth "secret" "secret" 1 [0]).2 rfl
  exact ⟨hbad.1,
    fun m => hbad.2 (by decide) Json (fun _ => true) (Json.str "x") none m,
    hok⟩

/-- C4: one iteration of the relay loop broadcasts the received frame
with `sender` set to the receiving connection, so with all sends
succeeding the frame reaches every other admitted member (in
particular any C2 ≠ C1) but is never echoed back to the sender C1. -/
theorem claim_C4_relay_excludes_sender (active : List Conn)
    (c1 c2 : Conn) (data : String) (_h1 : c1 ∈ active) (h2 : c2 ∈ active)
    (hne : c1 ≠ c2) :
    (c2, data) ∈ (relayStep (fun _ => true) c1 data active).2 ∧
    (∀ m : String, (c1, m) ∉ (relayStep (fun _ => true) c1 data active).2) ∧
    (∀ c ∈ active, c ≠ c1 →
      (c, data) ∈ (relayStep (fun _ => true) c1 data active).2) := by
  have hrepr : (relayStep (fun _ => true) c1 data active).2 =
      (active.filter (fun c => decide (some c ≠ some c1) && true)).map
        (fun c => (c, data)) :=
    ConnectionManager.broadcast_snd (fun _ => true) data (some c1) active
  refine ⟨?_, ?_, ?_⟩
  · rw [hrepr]
    exact List.mem_map.mpr ⟨c2, List.mem_filter.mpr ⟨h2, by
      simp [Ne.symm hne]⟩, rfl⟩
  · intro m hm
    rw [hrepr] at hm
    rcases List.mem_map.mp hm with ⟨d, hd, hdm⟩
    have hdc : d = c1 := congrArg Prod.fst hdm
    have := (List.mem_filter.mp hd).2
    rw [hdc] at this
    simp at this
  · intro c hc hcc1
    rw [hrepr]
    exact List.mem_map.mpr ⟨c, List.mem_filter.mpr ⟨hc, by
      simp [hcc1]⟩, rfl⟩

/-- Witness for C4 at two concrete admitted connections. -/
theorem claim_C4_witness :
    (1, "cmd") ∈ (relayStep (fun _ => true) 0 "cmd" [0, 1]).2 ∧
    (∀ m : String, (0, m) ∉ (relayStep (fun _ => true) 0 "cmd" [0, 1]).2) := by
  have h := claim_C4_relay_excludes_sender [0, 1] 0 1 "cmd"
    (by decide) (by decide) (by decide)
  exact ⟨h.1, h.2.1⟩

/-- C1 counterexample: on a successful ingestion the envelope actually
broadcast is `{"type": "telemetry", "data": payload}` — its tag field
is named `type`, not `kind` as the claim states: the code envelope has
no `kind` field and differs from the spec's `kind`-tagged envelope. -/
theorem claim_C1_counterexample :
    (telemetry (Except.ok ()) (Json.obj [("lat", Json.num 11)])
        (fun _ => true) [0]).2.2 =
      [(0, telemetryEnvelope (Json.obj [("lat", Json.num 11)]))] ∧
    (telemetryEnvelope (Json.obj [("lat", Json.num 11)])).lookup "kind" =
      none ∧
    (specEnvelopeKind (Json.obj [("lat", Json.num 11)])).lookup "kind" =
      some (Json.str "telemetry") ∧
    telemetryEnvelope (Json.obj [("lat", Json.num 11)]) ≠
      specEnvelopeKind (Json.obj [("lat", Json.num 11)]) := by
  refine ⟨rfl, rfl, rfl, ?_⟩
  intro h
  have h1 : (telemetryEnvelope (Json.obj [("lat", Json.num 11)])).lookup
        "kind" =
      (specEnvelopeKind (Json.obj [("lat", Json.num 11)])).lookup "kind" := by
    rw [h]
  rw [show (telemetryEnvelope (Json.obj [("lat", Json.num 11)])).lookup
      "kind" = none from rfl] at h1
  rw [show (specEnvelopeKind (Json.obj [("lat", Json.num 11)])).lookup
      "kind" = some (Json.str "telemetry") from rfl] at h1
  exact Option.noConfusion h1

/-- C1 (amended): on a successful ingestion the message broadcast (with
no sender exclusion) to every live connection is the envelope
`{"type": "telemetry", "data": <the submitted record>}` — the tag
field is named `type` (not `kind`), carries `"telemetry"`, and the
`data` field carries the submitted sample unchanged. -/
theorem claim_C1_amended_telemetry_envelope (payload : Json)
    (sendOk : Conn → Bool) (active : List Conn) :
    (telemetry (Except.ok ()) payload sendOk active).2.2 =
      (active.filter sendOk).map (fun c => (c, telemetryEnvelope payload)) ∧
    (telemetryEnvelope payload).lookup "type" = some (Json.str "telemetry") ∧
    (telemetryEnvelope payload).lookup "data" = some payload ∧
    (telemetryEnvelope payload).lookup "kind" = none := by
  refine ⟨?_, rfl, rfl, rfl⟩
  show (ConnectionManager.broadcast sendOk (telemetryEnvelope payload)
      none active).2 = _
  rw [ConnectionManager.broadcast_snd]
  have hp : (fun c => decide (some c ≠ (none : Option Conn)) && sendOk c) =
      sendOk := by
    funext c
    simp
  rw [hp]

/-- C2: broadcasting to a duplicate-free membership in which exactly
member `k` (not the excluded sender) fails: every other non-sender
member still receives the message, `k` is pruned from membership
(`active.erase k`) before the broadcast returns — the pruning is
handled inside the loop, so no error escapes to the caller — and a
subsequent broadcast over the pruned membership delivers to all its
members and removes nobody. -/
theorem claim_C2_broadcast_prunes_failed (active : List Conn) (k : Conn)
    (sender : Option Conn) (msg msg2 : String) (hnd : active.Nodup)
    (hk : k ∈ active) (hks : some k ≠ sender) :
    (∀ c ∈ active, c ≠ k → some c ≠ sender →
      (c, msg) ∈ (ConnectionManager.broadcast (fun c => decide (c ≠ k))
        msg sender active).2) ∧
    (∀ m : String, (k, m) ∉ (ConnectionManager.broadcast
      (fun c => decide (c ≠ k)) msg sender active).2) ∧
    (ConnectionManager.broadcast (fun c => decide (c ≠ k))
      msg sender active).1 = active.erase k ∧
    k ∉ (ConnectionManager.broadcast (fun c => decide (c ≠ k))
      msg sender active).1 ∧
    (ConnectionManager.broadcast (fun c => decide (c ≠ k)) msg2 none
      (active.erase k)).1 = active.erase k ∧
    (∀ c ∈ active.erase k, (c, msg2) ∈ (ConnectionManager.broadcast
      (fun c => decide (c ≠ k)) msg2 none (active.erase k)).2) := by
  have hfst : (ConnectionManager.broadcast (fun c => decide (c ≠ k))
      msg sender active).1 = active.erase k := by
    rw [ConnectionManager.broadcast_fst]
    rw [ConnectionManager.foldl_prune_single (fun c => decide (c ≠ k))
      sender k hks (by simp) active hnd hk
      (fun c _ hck => by simp [hck]) active]
    exact ConnectionManager.disconnect_eq_erase active k
  refine ⟨?_, ?_, hfst, ?_, ?_, ?_⟩
  · intro c hc hck hcs
    rw [ConnectionManager.broadcast_snd]
    exact List.mem_map.mpr ⟨c, List.mem_filter.mpr ⟨hc, by
      simp [hck, hcs]⟩, rfl⟩
  · intro m hm
    rw [ConnectionManager.broadcast_snd] at hm
    rcases List.mem_map.mp hm with ⟨d, hd, hdm⟩
    have hdk : d = k := congrArg Prod.fst hdm
    have := (List.mem_filter.mp hd).2
    rw [hdk] at this
    simp at this
  · rw [hfst]
    exact hnd.not_mem_erase
  · rw [ConnectionManager.broadcast_fst]
    refine ConnectionManager.foldl_prune_id (fun c => decide (c ≠ k))
      none (active.erase k) ?_ (active.erase k)
    intro c hc
    exact Or.inr (by simp [(hnd.mem_erase_iff.mp hc).1])
  · intro c hc
    rw [ConnectionManager.broadcast_snd]
    exact List.mem_map.mpr ⟨c, List.mem_filter.mpr ⟨hc, by
      simp [(hnd.mem_erase_iff.mp hc).1]⟩, rfl⟩

/-- Witness for C2 at a concrete three-member hub with member 1
failing. -/
theorem claim_C2_witness :
    (ConnectionManager.broadcast (fun c => decide (c ≠ 1)) "a" none
      ([0, 1, 2] : List Conn)).1 = [0, 2] ∧
    (2, "a") ∈ (ConnectionManager.broadcast (fun c => decide (c ≠ 1)) "a"
      none ([0, 1, 2] : List Conn)).2 ∧
    (∀ m : String, (1, m) ∉ (ConnectionManager.broadcast
      (fun c => decide (c ≠ 1)) "a" none ([0, 1, 2] : List Conn)).2) := by
  have h := claim_C2_broadcast_prunes_failed [0, 1, 2] 1 none "a" "b"
    (by decide) (by decide) (by decide)
  exact ⟨by rw [h.2.2.1]; rfl,
    h.1 2 (by decide) (by decide) (by decide), h.2.1⟩

/-- C6: a photo upload whose token differs from the shared secret
returns the distinct 403 `{"status": "forbidden"}` response with an
empty effect trace — no remote upload, no local file write, and no
broadcast — regardless of the configured storage strategy or the
outcomes the media sink would have produced. -/
theorem claim_C6_photo_wrong_token (cfg : PhotoConfig)
    (token filename : String) (remote : Except String RemoteResp)
    (localWriteOk : Except String Unit) (ts : Nat) (base : String)
    (h : token ≠ cfg.authToken) :
    upload_photo cfg token filename remote localWriteOk ts base =
      (Response.error 403 (Json.obj [("status", Json.str "forbidden")]),
       []) := by
  simp [upload_photo, h]

/-- Witness for C6 at a concrete configuration and wrong token. -/
theorem claim_C6_witness :
    upload_photo ⟨"secret", none, none, "/data/photos", ""⟩ "bad"
        "img.jpg" (Except.error "net down") (Except.ok ()) 17
        "http://host/" =
      (Response.error 403 (Json.obj [("status", Json.str "forbidden")]),
       []) :=
  claim_C6_photo_wrong_token ⟨"secret", none, none, "/data/photos", ""⟩
    "bad" "img.jpg" (Except.error "net down") (Except.ok ()) 17
    "http://host/" (by decide)

/-- C7 counterexample: the `limit` parameter is not clamped — a request
with `limit=5000` is rejected by FastAPI's `Query(50, ge=1, le=1000)`
validation with a 422 error and returns no result set at all. -/
theorem claim_C7_counterexample :
    telemetryRecentEndpoint (Except.ok []) (some 5000) =
      Response.error 422
        (errorBody "limit must be less than or equal to 1000") := rfl

/-- C7 (amended): the `limit` parameter is bounded by validation rather
than clamping — a missing parameter defaults to 50, an in-range value
(1 ≤ limit ≤ 1000) is accepted as-is, an out-of-range value is
rejected with a validation error, and consequently no call ever
returns a result set of more than 1000 rows. -/
theorem claim_C7_amended_limit_bounded
    (db : Except String (List TelemetryRow)) (limitParam : Option Int) :
    recentRowCount (telemetryRecentEndpoint db limitParam) ≤ 1000 ∧
    validateLimitParam none = Except.ok 50 ∧
    (∀ n : Int, 1 ≤ n → n ≤ 1000 →
      validateLimitParam (some n) = Except.ok n) ∧
    (∀ n : Int, n < 1 ∨ 1000 < n →
      ∃ e, validateLimitParam (some n) = Except.error e) := by
  refine ⟨?_, rfl, ?_, ?_⟩
  · have hbound : ∀ (store : List TelemetryRow) (lim : Int),
        lim ≤ 1000 →
        recentRowCount (telemetry_recent (Except.ok store) lim) ≤ 1000 := by
      intro store lim hlim
      show (((sortTimeDesc store).take lim.toNat).map rowJson).length ≤ 1000
      rw [List.length_map, List.length_take]
      exact le_trans (min_le_left _ _) (Int.toNat_le.mpr hlim)
    unfold telemetryRecentEndpoint
    cases hv : validateLimitParam limitParam with
    | error e => exact Nat.zero_le 1000
    | ok lim =>
      have hlim : lim ≤ 1000 := by
        cases limitParam with
        | none =>
          cases hv
          decide
        | some n =>
          unfold validateLimitParam at hv
          by_cases h1 : n < 1
          · simp [h1] at hv
          · by_cases h2 : n > 1000
            · simp [h1, h2] at hv
            · simp [h1, h2] at hv
              omega
      cases db with
      | error e => exact Nat.zero_le 1000
      | ok store => exact hbound store lim hlim
  · intro n hge hle
    have h1 : ¬ n < 1 := not_lt.mpr hge
    have h2 : ¬ n > 1000 := not_lt.mpr hle
    simp [validateLimitParam, h1, h2]
  · intro n hout
    rcases hout with h1 | h2
    · exact ⟨"limit must be greater than or equal to 1",
        by simp [validateLimitParam, h1]⟩
    · have h1 : ¬ n < 1 := by omega
      exact ⟨"limit must be less than or equal to 1000",
        by simp [validateLimitParam, h1, h2]⟩

/-- Witness for C7 at a concrete in-range request. -/
theorem claim_C7_witness :
    recentRowCount (telemetryRecentEndpoint (Except.ok []) (some 7)) ≤
      1000 ∧
    validateLimitParam (some 7) = Except.ok 7 := by
  have h := claim_C7_amended_limit_bounded (Except.ok []) (some 7)
  exact ⟨h.1, h.2.2.1 7 (by decide) (by decide)⟩

/-- C8: with three stored records at strictly increasing times
T1 < T2 < T3, the newest-first ordering is [T3, T2, T1], so
`telemetry_recent` with limit 2 returns exactly the rows [T3, T2] in
that order. -/
theorem claim_C8_recent_newest_first (r1 r2 r3 : TelemetryRow)
    (h12 : r1.time < r2.time) (h23 : r2.time < r3.time) :
    (sortTimeDesc [r1, r2, r3]).take 2 = [r3, r2] ∧
    telemetry_recent (Except.ok [r1, r2, r3]) 2 =
      Response.ok (Json.obj
        [("rows", Json.arr [rowJson r3, rowJson r2])]) := by
  have hn32 : ¬ r3.time ≤ r2.time := Nat.not_le.mpr h23
  have hn31 : ¬ r3.time ≤ r1.time :=
    Nat.not_le.mpr (Nat.lt_trans h12 h23)
  have hn21 : ¬ r2.time ≤ r1.time := Nat.not_le.mpr h12
  have hs : sortTimeDesc [r1, r2, r3] = [r3, r2, r1] := by
    simp [sortTimeDesc, insertDesc, hn32, hn31, hn21]
  constructor
  · rw [hs]
    rfl
  · simp [telemetry_recent, hs]

/-- Witness for C8 at three concrete records. -/
theorem claim_C8_witness :
    telemetry_recent (Except.ok
        [⟨1, none, none, none, none, none⟩,
         ⟨2, none, none, none, none, none⟩,
         ⟨3, none, none, none, none, none⟩]) 2 =
      Response.ok (Json.obj [("rows", Json.arr
        [rowJson ⟨3, none, none, none, none, none⟩,
         rowJson ⟨2, none, none, none, none, none⟩])]) :=
  (claim_C8_recent_newest_first
    ⟨1, none, none, none, none, none⟩
    ⟨2, none, none, none, none, none⟩
    ⟨3, none, none, none, none, none⟩ (by decide) (by decide)).2

/-- Hub membership invariant: admitting a fresh connection (a new
`WebSocket` object, hence not already a member) preserves freedom from
duplicates, justifying the duplicate-free hypotheses above. -/
theorem connect_preserves_nodup (authToken token : String) (w : Conn)
    (active : List Conn) (hnd : active.Nodup) (hw : w ∉ active) :
    ((ConnectionManager.connect authToken active w token).2.1).Nodup := by
  unfold ConnectionManager.connect
  by_cases h : token ≠ authToken
  · simpa [h] using hnd
  · simp [h, List.nodup_append, hnd, hw]

/-- Hub membership invariant: pruning a connection preserves freedom
from duplicates. -/
theorem disconnect_preserves_nodup (active : List Conn) (w : Conn)
    (hnd : active.Nodup) :
    (ConnectionManager.disconnect active w).Nodup := by
  rw [ConnectionManager.disconnect_eq_erase]
  exact hnd.erase w
